import Mathlib

/-!
# Verification of `src/describe_csv.py`

A shallow embedding of the column-description pipeline:
prompt construction, the MD5-keyed response cache, markdown field
extraction, generation with per-column fallback, and the CSV
orchestrator, together with proofs of the specified properties.

Modelling conventions:
* Strings are Lean `String`s (lists of characters); Python whitespace
  handling (`str.strip`, regex `\s`) is modelled over the ASCII
  whitespace characters.
* The external collaborators (the MD5 digest from `hashlib`, the
  `ollama` client, file I/O for the pickle cache, and `pandas` CSV
  ingestion) are fields of an environment record `Env`; theorems
  quantify over the environment.
* Fallible operations (`pickle.load` on a corrupt file, `pickle.dump`
  on a failing disk, `client.chat`) are modelled with `Except`/`Option`
  so that a raised exception is an explicit `.error` value that
  propagates exactly as far as the Python `try`/`except` blocks allow.
-/

/-- ASCII whitespace, as matched by Python `str.strip()` and the regex
class `\s` (the Unicode extension is not modelled). -/
def isPySpace (c : Char) : Bool :=
  c = ' ' || c = '\t' || c = '\n' || c = '\r' || c = '\x0b' || c = '\x0c'

/-- ASCII lowercasing, modelling `re.IGNORECASE` on the ASCII labels of
the extraction patterns. -/
def lowerChar (c : Char) : Char :=
  if 'A' ≤ c && c ≤ 'Z' then Char.ofNat (c.toNat + 32) else c

/-- Python `str.strip()`: drop ASCII whitespace from both ends. -/
def pyStrip (l : List Char) : List Char :=
  ((l.dropWhile isPySpace).reverse.dropWhile isPySpace).reverse

/-- `str.strip()` at the `String` level. -/
def pyStripStr (s : String) : String :=
  String.mk (pyStrip s.data)

/-- A character list with no leading and no trailing ASCII whitespace. -/
def noEdgeWsL (l : List Char) : Bool :=
  (match l.head? with
   | some c => !isPySpace c
   | none => true) &&
  (match l.getLast? with
   | some c => !isPySpace c
   | none => true)

/-- A string has no leading and no trailing ASCII whitespace. -/
def noEdgeWs (s : String) : Bool :=
  noEdgeWsL s.data

/-!
## The field extractor (`_parse_markdown_description`, lines 39-55)

Each pattern has the form `\*\*LABEL\*\*:\s*(.*?)(?=\n-|\n\n|$)` and is
applied with `re.search` under `re.DOTALL | re.IGNORECASE`.  Because the
lookahead alternative `$` always matches at the end of the input, the
whole pattern matches whenever the literal `**LABEL**:` occurs, so
`re.search` semantics reduce to:

* find the leftmost occurrence of `**LABEL**:` (case-insensitively; for
  the issues field the two historical labels are tried in the pattern's
  alternation order at each position);
* skip the maximal run of whitespace after the colon (greedy `\s*`);
* capture up to the first position at which `\n-` or `\n\n` follows, or
  the end of the input, or the input's single trailing newline (Python
  `$` also matches just before a final newline);
* `str.strip()` the capture.
-/

/-- Match one (pre-lowercased) label literal as a prefix of the text,
returning the remainder of the text after the label. -/
def tryLabel : List Char → List Char → Option (List Char)
  | [], s => some s
  | _ :: _, [] => none
  | p :: ps, c :: cs => if lowerChar c = p then tryLabel ps cs else none

/-- Try each label of the alternation, in pattern order, at the current
position. -/
def tryLabels (L : List (List Char)) (s : List Char) : Option (List Char) :=
  match L with
  | [] => none
  | l :: ls =>
    match tryLabel l s with
    | some r => some r
    | none => tryLabels ls s

/-- `re.search`: scan left to right for the first position at which one
of the labels matches; return the text after the matched label. -/
def searchLabels (L : List (List Char)) : List Char → Option (List Char)
  | [] => tryLabels L []
  | c :: cs =>
    match tryLabels L (c :: cs) with
    | some r => some r
    | none => searchLabels L cs

/-- Does the remaining text begin with `-` or a newline?  Used by
`stopHere` for the two-character stops `\n-` and `\n\n`. -/
def firstIsDashOrNL : List Char → Bool
  | [] => false
  | c :: _ => c = '-' || c = '\n'

/-- The lookahead `(?=\n-|\n\n|$)` holds at this position: either the
input is exhausted, or only a final newline remains (Python `$` matches
before a trailing newline), or a `\n-` or `\n\n` follows. -/
def stopHere : List Char → Bool
  | [] => true
  | c :: rest => c = '\n' && (rest.isEmpty || firstIsDashOrNL rest)

/-- The lazy capture `(.*?)` before the lookahead: take characters up to
the first position at which `stopHere` holds. -/
def captureUpto : List Char → List Char
  | [] => []
  | c :: rest => if stopHere (c :: rest) then [] else c :: captureUpto rest

/-- The labels of the four patterns, pre-lowercased (`re.IGNORECASE`). -/
def bpLabel : List Char := "**business purpose**:".data

/-- Label of the `data_quality_rules` pattern. -/
def dqLabel : List Char := "**data quality rules**:".data

/-- Label of the `example_usage` pattern. -/
def euLabel : List Char := "**example usage**:".data

/-- First alternative of the `issues` pattern. -/
def kiLabel : List Char := "**known issues/limitations**:".data

/-- Second alternative of the `issues` pattern. -/
def isLabel : List Char := "**issues**:".data

/-- Apply one pattern to the description: `N/A` when the label is
absent, otherwise the stripped capture. -/
def parseField (L : List (List Char)) (description : String) : String :=
  match searchLabels L description.data with
  | none => "N/A"
  | some rest => String.mk (pyStrip (captureUpto (rest.dropWhile isPySpace)))

/-- `_parse_markdown_description` (lines 39-55): the result dictionary,
with its four keys in insertion order. -/
def _parse_markdown_description (description : String) : List (String × String) :=
  [("business_purpose", parseField [bpLabel] description),
   ("data_quality_rules", parseField [dqLabel] description),
   ("example_usage", parseField [euLabel] description),
   ("issues", parseField [kiLabel, isLabel] description)]

/-!
## Prompt construction (lines 66-83)

The prompt is the triple-quoted f-string of
`_generate_description_with_ollama`, a pure function of the table name,
the column metadata and the sample values.  The interpolation
`{sample_values}` renders the Python list; a sample value is modelled
by its rendered form, so the list renders as the bracketed
comma-separated sequence of its elements.
-/

/-- Column metadata as assembled on lines 142-146: the keys
`column_name`, `data_type` and `is_nullable` (`is_nullable` holds the
string `YES` or `NO`). -/
structure ColumnInfo where
  column_name : String
  data_type : String
  is_nullable : String
deriving DecidableEq

/-- Rendering of the Python list `sample_values` inside the f-string
(each element stands for the rendered form of one sample value). -/
def pyListRepr (xs : List String) : String :=
  "[" ++ String.intercalate ", " xs ++ "]"

/-- The prompt f-string (lines 66-83), transcribed verbatim; every line
of the triple-quoted literal carries its four-space indentation and the
literal ends with a newline and four spaces. -/
def buildPrompt (table_name : String) (column_info : ColumnInfo)
    (sample_values : List String) : String :=
  "\n    As a data governance expert, provide a concise description for the following database column:\n    \n    Table: "
    ++ table_name
    ++ "\n    Column: " ++ column_info.column_name
    ++ "\n    Data Type: " ++ column_info.data_type
    ++ "\n    Is Nullable: " ++ column_info.is_nullable
    ++ "\n    \n    Here are a few sample values from the column: "
    ++ pyListRepr sample_values
    ++ "\n    \n    Please provide the following information in markdown format:\n    - **Business Purpose**: Briefly describe the column\x27s role in business processes (1 clear sentence).\n    - **Data Quality Rules**: List 1-2 critical rules to ensure data integrity (e.g., format, range, uniqueness).\n    - **Example Usage**: Provide one practical example of how this column is used in analysis or operations.\n    - **Known Issues/Limitations**: Identify 1-2 potential data quality issues or limitations.\n    \n    Keep the total response under 200 words.\n    "

/-- The fallback response synthesized in the `except` branch
(lines 107-112), with `e` the text of the caught exception. -/
def fallbackText (table_name : String) (column_info : ColumnInfo) (e : String) : String :=
  "- **Business Purpose**: Could not determine purpose for " ++ column_info.column_name
    ++ ".\n- **Data Quality Rules**: Must conform to data type " ++ column_info.data_type
    ++ ".\n- **Example Usage**: Used for general analysis within the " ++ table_name
    ++ " table.\n- **Known Issues/Limitations**: LLM description generation failed: " ++ e

/-!
## The response cache (lines 21-37)

The cache directory holds one pickle file per MD5 key.  A file may be
absent, readable (holding the pickled response string), or corrupt, in
which case `pickle.load` raises.  `_load_from_cache` and
`_save_to_cache` contain no exception handling of their own.
-/

/-- The on-disk state of one cache file: a readable pickled string, or
a corrupt/unreadable file. -/
inductive CacheVal where
  | good (s : String)
  | corrupt
deriving DecidableEq

/-- The cache directory: an association of keys to file states (absent
keys have no file). -/
def Cache := List (String × CacheVal)

/-- File lookup in the cache directory (first binding wins). -/
def lookupC : Cache → String → Option CacheVal
  | [], _ => none
  | (k, v) :: rest, key => if k = key then some v else lookupC rest key

/-- Writing a cache file (the new binding shadows any old one). -/
def insertC (cache : Cache) (key : String) (v : CacheVal) : Cache :=
  (key, v) :: cache

/-- A cache directory none of whose files is corrupt. -/
def CleanCache (cache : Cache) : Prop :=
  ∀ k, lookupC cache k ≠ some CacheVal.corrupt

/-- One column of the CSV as seen through `pandas` (lines 140-147): the
column name, the rendered dtype (`str(df[c].dtype)`), and the column
entries, `none` standing for a missing value. -/
structure DfColumn where
  name : String
  dtype : String
  values : List (Option String)

/-- The external collaborators of the pipeline.  Each field models one
black-box dependency; theorems quantify over the whole record. -/
structure Env where
  /-- `hashlib.md5(prompt.encode()).hexdigest()`: the digest used as
  cache key, an arbitrary deterministic function of the prompt text. -/
  md5Hex : String → String
  /-- `ollama.Client().chat`: from model name and prompt to the
  response content `response[...]`, or a raised exception's text. -/
  gen : String → String → Except String String
  /-- Outcome of persisting a cache file under a key: `none` = the
  write succeeds, `some msg` = the I/O raises with text `msg`. -/
  storeFail : String → Option String
  /-- `os.path.exists` on the CSV path. -/
  fileExists : String → Bool
  /-- `pd.read_csv`: the parsed columns, or a raised exception. -/
  readCsv : String → Except String (List DfColumn)

/-- `_get_cache_key` (lines 21-23): the MD5 hex digest of the prompt. -/
def _get_cache_key (env : Env) (prompt : String) : String :=
  env.md5Hex prompt

/-- `_load_from_cache` (lines 25-31): return the entry if its file
exists and unpickles, `none` if the file is absent; a corrupt file
makes `pickle.load` raise, and the function has no handler for it. -/
def _load_from_cache (cache : Cache) (cache_key : String) : Except String (Option String) :=
  match lookupC cache cache_key with
  | none => Except.ok none
  | some (CacheVal.good s) => Except.ok (some s)
  | some CacheVal.corrupt => Except.error "UnpicklingError"

/-- `_save_to_cache` (lines 33-37): persist the response under the key;
an I/O failure raises (no handler inside the function). -/
def _save_to_cache (env : Env) (cache : Cache) (cache_key : String)
    (response : String) : Except String Cache :=
  match env.storeFail cache_key with
  | none => Except.ok (insertC cache cache_key (CacheVal.good response))
  | some msg => Except.error msg

/-- What one call of `_generate_description_with_ollama` produced: the
returned description, the cache directory afterwards, and the list of
`(model, prompt)` calls issued to the generation collaborator. -/
structure GenOutcome where
  text : String
  cache : Cache
  calls : List (String × String)

/-- `_generate_description_with_ollama` (lines 57-113).  The cache
lookup (line 86) sits outside the `try`, so a corrupt entry's exception
propagates (`.error`).  The truthiness test `if cached_response:` makes
an empty cached string fall through to regeneration.  The `try` block
covers the `ollama` call, the `.strip()`, and `_save_to_cache`; any
exception inside it is answered with the fallback response. -/
def _generate_description_with_ollama (env : Env) (cache : Cache)
    (table_name : String) (column_info : ColumnInfo)
    (sample_values : List String) (model : String) :
    Except String GenOutcome :=
  let prompt := buildPrompt table_name column_info sample_values
  let cache_key := _get_cache_key env prompt
  let miss : Except String GenOutcome :=
    match env.gen model prompt with
    | Except.error e =>
      Except.ok ⟨fallbackText table_name column_info e, cache, [(model, prompt)]⟩
    | Except.ok content =>
      let description := pyStripStr content
      match _save_to_cache env cache cache_key description with
      | Except.ok cache2 => Except.ok ⟨description, cache2, [(model, prompt)]⟩
      | Except.error e =>
        Except.ok ⟨fallbackText table_name column_info e, cache, [(model, prompt)]⟩
  match _load_from_cache cache cache_key with
  | Except.error e => Except.error e
  | Except.ok (some cached) =>
    if cached = "" then miss else Except.ok ⟨cached, cache, []⟩
  | Except.ok none => miss

/-!
## The orchestrator (`generate_descriptions_from_csv`, lines 117-166)
-/

/-- A Python value of the output structure: a string, a dict with its
keys in insertion order, or a list. -/
inductive PyVal where
  | str (s : String)
  | vdict (fields : List (String × PyVal))
  | vlist (xs : List PyVal)

/-- The metadata dictionary of lines 142-146. -/
def colInfoOf (c : DfColumn) : ColumnInfo :=
  { column_name := c.name,
    data_type := c.dtype,
    is_nullable := if c.values.any (fun v => v.isNone) then "YES" else "NO" }

/-- `Series.unique`: first occurrences, in order. -/
def dedupAux (seen : List String) : List String → List String
  | [] => []
  | x :: xs => if x ∈ seen then dedupAux seen xs else x :: dedupAux (x :: seen) xs

/-- `df[c].dropna().unique().tolist()[:5]` (line 147): the non-missing
values, deduplicated keeping first occurrences, truncated to five. -/
def samplesOf (c : DfColumn) : List String :=
  (dedupAux [] (c.values.filterMap id)).take 5

/-- `os.path.basename`: the part of the path after the last slash. -/
def pyBasename (p : String) : List Char :=
  (p.data.reverse.takeWhile (fun c => c ≠ '/')).reverse

/-- The stem of `os.path.splitext`: cut at the last dot, unless every
character before that dot is itself a dot (so that a leading-dot name
like `.bashrc` keeps its dot). -/
def pyStem (b : List Char) : List Char :=
  let rev := b.reverse
  let afterRev := rev.takeWhile (fun c => c ≠ '.')
  if afterRev.length = rev.length then b
  else
    let preRev := rev.drop (afterRev.length + 1)
    if preRev.any (fun c => c ≠ '.') then preRev.reverse else b

/-- Line 136: `os.path.splitext(os.path.basename(csv_file_path))[0]`. -/
def tableNameOf (csv_file_path : String) : String :=
  String.mk (pyStem (pyBasename csv_file_path))

/-- Lines 156-159: the per-column output dictionary, whose second key
is the literal `column_desc` wrapping a one-element list. -/
def finalColumnStructure (column_name : String) (parsed_desc : List (String × String)) : PyVal :=
  PyVal.vdict
    [("column_name", PyVal.str column_name),
     ("column_desc", PyVal.vlist
        [PyVal.vdict (parsed_desc.map (fun kv => (kv.1, PyVal.str kv.2)))])]

/-- The per-column loop of lines 140-160, threading the cache and
accumulating the generator calls.  An exception escaping
`_generate_description_with_ollama` aborts the loop, carrying the cache
and the calls made so far. -/
def processColumns (env : Env) (table_name model : String) :
    List DfColumn → Cache →
    Except (String × Cache × List (String × String))
      (List PyVal × Cache × List (String × String))
  | [], cache => Except.ok ([], cache, [])
  | col :: rest, cache =>
    match _generate_description_with_ollama env cache table_name (colInfoOf col)
        (samplesOf col) model with
    | Except.error e => Except.error (e, cache, [])
    | Except.ok out =>
      match processColumns env table_name model rest out.cache with
      | Except.error (e, cache2, calls2) => Except.error (e, cache2, out.calls ++ calls2)
      | Except.ok (recs, cache2, calls2) =>
        Except.ok (finalColumnStructure col.name (_parse_markdown_description out.text) :: recs,
          cache2, out.calls ++ calls2)

/-- `generate_descriptions_from_csv` (lines 117-166).  Returns the
result dictionary together with the final cache directory and the list
of generator calls issued.  A missing file returns the empty dict
(lines 129-131); the whole body sits in a `try` whose handler also
returns the empty dict (lines 164-166). -/
def generate_descriptions_from_csv (env : Env) (cache : Cache)
    (csv_file_path : String) (model : String := "llama3") :
    PyVal × Cache × List (String × String) :=
  if env.fileExists csv_file_path = false then (PyVal.vdict [], cache, [])
  else
    match env.readCsv csv_file_path with
    | Except.error _ => (PyVal.vdict [], cache, [])
    | Except.ok df =>
      let table_name := tableNameOf csv_file_path
      match processColumns env table_name model df cache with
      | Except.error (_, cache2, calls2) => (PyVal.vdict [], cache2, calls2)
      | Except.ok (recs, cache2, calls2) =>
        (PyVal.vdict [(table_name, PyVal.vlist recs)], cache2, calls2)

/-- The key lists of the per-column records of a result dictionary
`{table: [record, ...]}` (used to state claims about the output's
field names). -/
def recordKeyLists : PyVal → List (List String)
  | PyVal.vdict [(_, PyVal.vlist rs)] =>
    rs.map (fun r =>
      match r with
      | PyVal.vdict l => l.map Prod.fst
      | _ => [])
  | _ => []

/-- The record shape the specification prescribes for one column of the
output: the column name paired, under the key `descriptions`, with a
one-element sequence.  Stated from the spec's words (§3 ColumnRecord,
§6), to be compared with the shape the code produces. -/
def specRecordKeys : List String :=
  ["column_name", "descriptions"]

/-- The four field names of a StructuredDescription. -/
def structuredKeys : List String :=
  ["business_purpose", "data_quality_rules", "example_usage", "issues"]

/-- A string none of whose characters lowercases to `*` (so no
extraction label can begin inside it). -/
def noStar (s : String) : Prop :=
  ∀ c ∈ s.data, lowerChar c ≠ '*'

/-- A string without newline characters (so no capture stop and no
section break can occur inside it). -/
def noNL (s : String) : Prop :=
  ∀ c ∈ s.data, c ≠ '\n'

instance decNoStar (s : String) : Decidable (noStar s) :=
  inferInstanceAs (Decidable (∀ c ∈ s.data, lowerChar c ≠ '*'))

instance decNoNL (s : String) : Decidable (noNL s) :=
  inferInstanceAs (Decidable (∀ c ∈ s.data, c ≠ '\n'))

/-!
## Concrete instances used by counterexamples and witnesses
-/

/-- A concrete column metadata record. -/
def ciC2 : ColumnInfo :=
  ⟨"TransactionID", "int64", "NO"⟩

/-- World for the cache-store-failure scenario: generation succeeds but
every cache write raises an I/O error. -/
def envC2 : Env :=
  { md5Hex := fun _ => "K"
    gen := fun _ _ => Except.ok "FRESH DESCRIPTION"
    storeFail := fun _ => some "Disk write failed"
    fileExists := fun _ => true
    readCsv := fun _ => Except.ok [] }

/-- A one-column table. -/
def dfC3 : List DfColumn :=
  [⟨"TransactionID", "int64", [some "101", some "102"]⟩]

/-- World for the corrupt-cache-entry scenario: the CSV exists and
parses; the digest of every prompt is the key `K`. -/
def envC3 : Env :=
  { md5Hex := fun _ => "K"
    gen := fun _ _ => Except.ok "regenerated text"
    storeFail := fun _ => none
    fileExists := fun _ => true
    readCsv := fun _ => Except.ok dfC3 }

/-- A cache directory whose only file, under key `K`, is corrupt. -/
def cacheC3 : Cache :=
  [("K", CacheVal.corrupt)]

/-- A one-column table for the output-shape scenario. -/
def dfC7 : List DfColumn :=
  [⟨"StoreID", "object", [some "STORE-A", some "STORE-B"]⟩]

/-- World for the output-shape scenario: a well-formed four-section
response is generated and everything succeeds. -/
def envC7 : Env :=
  { md5Hex := fun _ => "K"
    gen := fun _ _ => Except.ok "- **Business Purpose**: Identifies the store.\n- **Data Quality Rules**: Must be unique.\n- **Example Usage**: Join with stores.\n- **Known Issues/Limitations**: None known."
    storeFail := fun _ => none
    fileExists := fun _ => true
    readCsv := fun _ => Except.ok dfC7 }

/-- World in which generation succeeds and cache writes succeed. -/
def envW1 : Env :=
  { md5Hex := fun p => p
    gen := fun _ _ => Except.ok "A plain response"
    storeFail := fun _ => none
    fileExists := fun _ => true
    readCsv := fun _ => Except.ok [] }

/-- A second such world, for the model-staleness scenario. -/
def envW9 : Env :=
  { md5Hex := fun p => p
    gen := fun model _ => Except.ok ("Answer from " ++ model)
    storeFail := fun _ => none
    fileExists := fun _ => true
    readCsv := fun _ => Except.ok [] }

/-- World for the falsy-cache-entry scenario. -/
def envW10 : Env :=
  { md5Hex := fun _ => "K"
    gen := fun _ _ => Except.ok "regenerated"
    storeFail := fun _ => none
    fileExists := fun _ => true
    readCsv := fun _ => Except.ok [] }

/-- A cache directory holding the empty string under key `K`. -/
def cacheW10 : Cache :=
  [("K", CacheVal.good "")]

/-- A one-column table for the total-generation-failure scenario. -/
def dfW5 : List DfColumn :=
  [⟨"SaleAmount", "float64", [some "99.99", none, some "150.0"]⟩]

/-- World in which every generation call raises. -/
def envW5 : Env :=
  { md5Hex := fun p => p
    gen := fun _ _ => Except.error "Connection refused"
    storeFail := fun _ => none
    fileExists := fun _ => true
    readCsv := fun _ => Except.ok dfW5 }

/-- The constant error text of `envW5.gen`. -/
def errW5 : String → String → String :=
  fun _ _ => "Connection refused"

/-- World in which the CSV path does not exist. -/
def envW8 : Env :=
  { md5Hex := fun p => p
    gen := fun _ _ => Except.ok "unused"
    storeFail := fun _ => none
    fileExists := fun _ => false
    readCsv := fun _ => Except.error "FileNotFoundError" }

/-!
## Cache and generation lemmas
-/

theorem lookup_insertC_self (cache : Cache) (k : String) (v : CacheVal) :
    lookupC (insertC cache k v) k = some v := by
  simp [insertC, lookupC]

/-- A cache miss followed by a successful generation and a successful
store returns the stripped response after writing it under the
prompt's key, with exactly one generator call. -/
theorem genDesc_miss_store (env : Env) (cache : Cache) (tn : String) (ci : ColumnInfo)
    (samples : List String) (model t : String)
    (hmiss : lookupC cache (_get_cache_key env (buildPrompt tn ci samples)) = none)
    (hgen : env.gen model (buildPrompt tn ci samples) = Except.ok t)
    (hstore : env.storeFail (_get_cache_key env (buildPrompt tn ci samples)) = none) :
    _generate_description_with_ollama env cache tn ci samples model =
      Except.ok ⟨pyStripStr t,
        insertC cache (_get_cache_key env (buildPrompt tn ci samples))
          (CacheVal.good (pyStripStr t)),
        [(model, buildPrompt tn ci samples)]⟩ := by
  simp only [_get_cache_key] at hmiss hstore
  simp [_generate_description_with_ollama, _get_cache_key, _load_from_cache, _save_to_cache,
    hmiss, hgen, hstore]

/-- A readable non-empty cached entry is returned as is, with no
generator call and no cache change. -/
theorem genDesc_hit (env : Env) (cache : Cache) (tn : String) (ci : ColumnInfo)
    (samples : List String) (model d : String)
    (hhit : lookupC cache (_get_cache_key env (buildPrompt tn ci samples)) =
      some (CacheVal.good d))
    (hd : d ≠ "") :
    _generate_description_with_ollama env cache tn ci samples model =
      Except.ok ⟨d, cache, []⟩ := by
  simp only [_get_cache_key] at hhit
  simp [_generate_description_with_ollama, _get_cache_key, _load_from_cache, hhit, hd]

/-- C1: for fixed (table name, column metadata, samples, model), when
the prompt's key is initially absent from the cache and the single
generation succeeds with a non-empty stripped response that persists
successfully, running the pipeline twice issues exactly one generator
call: the first run makes it and stores the result under the key of
the byte-identical prompt, the second run makes none, is served that
stored entry, and its parsed StructuredDescription is identical. -/
theorem c1_cache_correctness (env : Env) (cache : Cache) (tn : String) (ci : ColumnInfo)
    (samples : List String) (model t : String)
    (hmiss : lookupC cache (_get_cache_key env (buildPrompt tn ci samples)) = none)
    (hgen : env.gen model (buildPrompt tn ci samples) = Except.ok t)
    (ht : pyStripStr t ≠ "")
    (hstore : env.storeFail (_get_cache_key env (buildPrompt tn ci samples)) = none) :
    ∃ out1 out2 : GenOutcome,
      _generate_description_with_ollama env cache tn ci samples model = Except.ok out1 ∧
      _generate_description_with_ollama env out1.cache tn ci samples model = Except.ok out2 ∧
      out1.calls = [(model, buildPrompt tn ci samples)] ∧
      out2.calls = [] ∧
      lookupC out1.cache (_get_cache_key env (buildPrompt tn ci samples)) =
        some (CacheVal.good out1.text) ∧
      out2.text = out1.text ∧
      _parse_markdown_description out2.text = _parse_markdown_description out1.text := by
  refine ⟨_, _, genDesc_miss_store env cache tn ci samples model t hmiss hgen hstore,
    genDesc_hit env _ tn ci samples model _ (lookup_insertC_self ..) ht,
    rfl, rfl, lookup_insertC_self .., rfl, rfl⟩

/-- Witness for C1 at a concrete world: empty cache, a one-column
prompt, a plain successful generation. -/
theorem c1_cache_correctness_witness :
    lookupC []
        (_get_cache_key envW1 (buildPrompt "sales" ⟨"StoreID", "object", "NO"⟩ ["STORE-A"])) =
      none ∧
    envW1.gen "llama3" (buildPrompt "sales" ⟨"StoreID", "object", "NO"⟩ ["STORE-A"]) =
      Except.ok "A plain response" ∧
    pyStripStr "A plain response" ≠ "" ∧
    envW1.storeFail
        (_get_cache_key envW1 (buildPrompt "sales" ⟨"StoreID", "object", "NO"⟩ ["STORE-A"])) =
      none ∧
    (∃ out1 out2 : GenOutcome,
      _generate_description_with_ollama envW1 [] "sales" ⟨"StoreID", "object", "NO"⟩
          ["STORE-A"] "llama3" = Except.ok out1 ∧
      _generate_description_with_ollama envW1 out1.cache "sales" ⟨"StoreID", "object", "NO"⟩
          ["STORE-A"] "llama3" = Except.ok out2 ∧
      out1.calls = [("llama3", buildPrompt "sales" ⟨"StoreID", "object", "NO"⟩ ["STORE-A"])] ∧
      out2.calls = [] ∧
      lookupC out1.cache
          (_get_cache_key envW1 (buildPrompt "sales" ⟨"StoreID", "object", "NO"⟩ ["STORE-A"])) =
        some (CacheVal.good out1.text) ∧
      out2.text = out1.text ∧
      _parse_markdown_description out2.text = _parse_markdown_description out1.text) :=
  ⟨rfl, rfl, by decide, rfl,
    c1_cache_correctness envW1 [] "sales" ⟨"StoreID", "object", "NO"⟩ ["STORE-A"]
      "llama3" "A plain response" rfl rfl (by decide) rfl⟩

/-- C9: the cache key is a function of the prompt alone and the prompt
embeds no model identifier, so a second run that differs only in the
model argument is served the first model's cached response and never
invokes the generator with the new model. -/
theorem c9_model_change_served_stale_cache (env : Env) (cache : Cache) (tn : String)
    (ci : ColumnInfo) (samples : List String) (m1 m2 t : String)
    (hmiss : lookupC cache (_get_cache_key env (buildPrompt tn ci samples)) = none)
    (hgen : env.gen m1 (buildPrompt tn ci samples) = Except.ok t)
    (ht : pyStripStr t ≠ "")
    (hstore : env.storeFail (_get_cache_key env (buildPrompt tn ci samples)) = none) :
    ∃ out1 out2 : GenOutcome,
      _generate_description_with_ollama env cache tn ci samples m1 = Except.ok out1 ∧
      _generate_description_with_ollama env out1.cache tn ci samples m2 = Except.ok out2 ∧
      out1.calls = [(m1, buildPrompt tn ci samples)] ∧
      out2.calls = [] ∧
      out2.text = out1.text := by
  refine ⟨_, _, genDesc_miss_store env cache tn ci samples m1 t hmiss hgen hstore,
    genDesc_hit env _ tn ci samples m2 _ (lookup_insertC_self ..) ht,
    rfl, rfl, rfl⟩

/-- Witness for C9: the first run uses model `llama3`, the second run
asks for model `mistral` and is served `llama3`'s answer with no call. -/
theorem c9_model_change_served_stale_cache_witness :
    lookupC []
        (_get_cache_key envW9 (buildPrompt "sales" ⟨"StoreID", "object", "NO"⟩ ["STORE-A"])) =
      none ∧
    envW9.gen "llama3" (buildPrompt "sales" ⟨"StoreID", "object", "NO"⟩ ["STORE-A"]) =
      Except.ok "Answer from llama3" ∧
    pyStripStr "Answer from llama3" ≠ "" ∧
    (∃ out1 out2 : GenOutcome,
      _generate_description_with_ollama envW9 [] "sales" ⟨"StoreID", "object", "NO"⟩
          ["STORE-A"] "llama3" = Except.ok out1 ∧
      _generate_description_with_ollama envW9 out1.cache "sales" ⟨"StoreID", "object", "NO"⟩
          ["STORE-A"] "mistral" = Except.ok out2 ∧
      out1.calls = [("llama3", buildPrompt "sales" ⟨"StoreID", "object", "NO"⟩ ["STORE-A"])] ∧
      out2.calls = [] ∧
      out2.text = out1.text) :=
  ⟨rfl, rfl, by decide,
    c9_model_change_served_stale_cache envW9 [] "sales" ⟨"StoreID", "object", "NO"⟩
      ["STORE-A"] "llama3" "mistral" "Answer from llama3" rfl rfl (by decide) rfl⟩

/-- C10: a cached empty string is present in the store yet falsy, so
the lookup is treated as a miss and the generator is invoked again on
every call made while the entry holds that value. -/
theorem c10_falsy_entry_treated_as_miss (env : Env) (cache : Cache) (tn : String)
    (ci : ColumnInfo) (samples : List String) (model : String)
    (h : lookupC cache (_get_cache_key env (buildPrompt tn ci samples)) =
      some (CacheVal.good "")) :
    ∃ out : GenOutcome,
      _generate_description_with_ollama env cache tn ci samples model = Except.ok out ∧
      out.calls = [(model, buildPrompt tn ci samples)] := by
  simp only [_get_cache_key] at h
  cases hg : env.gen model (buildPrompt tn ci samples) with
  | error e =>
    refine ⟨⟨fallbackText tn ci e, cache, [(model, buildPrompt tn ci samples)]⟩, ?_, rfl⟩
    simp [_generate_description_with_ollama, _get_cache_key, _load_from_cache, h, hg]
  | ok content =>
    cases hs : env.storeFail (env.md5Hex (buildPrompt tn ci samples)) with
    | none =>
      refine ⟨⟨pyStripStr content,
        insertC cache (env.md5Hex (buildPrompt tn ci samples)) (CacheVal.good (pyStripStr content)),
        [(model, buildPrompt tn ci samples)]⟩, ?_, rfl⟩
      simp [_generate_description_with_ollama, _get_cache_key, _load_from_cache,
        _save_to_cache, h, hg, hs]
    | some msg =>
      refine ⟨⟨fallbackText tn ci msg, cache, [(model, buildPrompt tn ci samples)]⟩, ?_, rfl⟩
      simp [_generate_description_with_ollama, _get_cache_key, _load_from_cache,
        _save_to_cache, h, hg, hs]

/-- Witness for C10: the store holds `""` under the prompt's key, and
the run still issues one generator call. -/
theorem c10_falsy_entry_treated_as_miss_witness :
    lookupC cacheW10
        (_get_cache_key envW10 (buildPrompt "sales" ⟨"StoreID", "object", "NO"⟩ ["STORE-A"])) =
      some (CacheVal.good "") ∧
    (∃ out : GenOutcome,
      _generate_description_with_ollama envW10 cacheW10 "sales" ⟨"StoreID", "object", "NO"⟩
          ["STORE-A"] "llama3" = Except.ok out ∧
      out.calls = [("llama3", buildPrompt "sales" ⟨"StoreID", "object", "NO"⟩ ["STORE-A"])]) :=
  ⟨rfl,
    c10_falsy_entry_treated_as_miss envW10 cacheW10 "sales" ⟨"StoreID", "object", "NO"⟩
      ["STORE-A"] "llama3" rfl⟩

/-- C2 (code bug): with generation succeeding and the cache write
raising an I/O error, the single `except` handler of lines 105-113
catches the store failure too, so the call returns the synthesized
fallback instead of the freshly generated description (which is
discarded), while the pipeline itself does not abort. -/
theorem c2_store_failure_discards_fresh_description :
    _generate_description_with_ollama envC2 [] "sales_data" ciC2 ["101", "102"] "llama3" =
      Except.ok ⟨fallbackText "sales_data" ciC2 "Disk write failed", [],
        [("llama3", buildPrompt "sales_data" ciC2 ["101", "102"])]⟩ ∧
    envC2.gen "llama3" (buildPrompt "sales_data" ciC2 ["101", "102"]) =
      Except.ok "FRESH DESCRIPTION" ∧
    pyStripStr "FRESH DESCRIPTION" = "FRESH DESCRIPTION" ∧
    fallbackText "sales_data" ciC2 "Disk write failed" ≠ "FRESH DESCRIPTION" :=
  ⟨rfl, rfl, by decide, by decide⟩

/-- C3 (code bug): with a corrupt cache file under the key of the only
column's prompt, `pickle.load` raises outside any local handler, the
table-level `except` catches it, and the whole call returns the empty
dict having never invoked the generator: the corruption is not treated
as a cache miss and no regeneration happens. -/
theorem c3_corrupt_entry_aborts_table :
    generate_descriptions_from_csv envC3 cacheC3 "sales_data.csv" "llama3" =
      (PyVal.vdict [], cacheC3, []) :=
  rfl

/-- C8: a path whose file does not exist, or whose read raises, makes
the orchestrator return the empty dict rather than raise. -/
theorem c8_unreadable_source_returns_empty (env : Env) (cache : Cache)
    (path model : String)
    (h : env.fileExists path = false ∨ ∃ e, env.readCsv path = Except.error e) :
    (generate_descriptions_from_csv env cache path model).1 = PyVal.vdict [] := by
  rcases h with h | ⟨e, h⟩
  · simp [generate_descriptions_from_csv, h]
  · by_cases hex : env.fileExists path = false
    · simp [generate_descriptions_from_csv, hex]
    · simp [generate_descriptions_from_csv, hex, h]

/-- Witness for C8: a missing file yields the empty dict. -/
theorem c8_unreadable_source_returns_empty_witness :
    (envW8.fileExists "no_such_file.csv" = false ∨
      ∃ e, envW8.readCsv "no_such_file.csv" = Except.error e) ∧
    (generate_descriptions_from_csv envW8 [] "no_such_file.csv" "llama3").1 = PyVal.vdict [] :=
  ⟨Or.inl rfl,
    c8_unreadable_source_returns_empty envW8 [] "no_such_file.csv" "llama3" (Or.inl rfl)⟩

/-!
## Extractor lemmas (claim C4)
-/

theorem head?_dropWhile_false (p : Char → Bool) :
    ∀ (l : List Char) (c : Char), (l.dropWhile p).head? = some c → p c = false := by
  intro l
  induction l with
  | nil => intro c h; simp [List.dropWhile] at h
  | cons a t ih =>
    intro c h
    rw [List.dropWhile_cons] at h
    by_cases hpa : p a
    · rw [if_pos hpa] at h
      exact ih c h
    · rw [if_neg hpa] at h
      simp only [List.head?_cons, Option.some.injEq] at h
      subst h
      exact Bool.eq_false_iff.mpr hpa

theorem getLast?_dropWhile_of_ne_nil (p : Char → Bool) :
    ∀ l : List Char, l.dropWhile p ≠ [] → (l.dropWhile p).getLast? = l.getLast? := by
  intro l
  induction l with
  | nil => intro h; exact absurd rfl h
  | cons a t ih =>
    intro hne
    rw [List.dropWhile_cons] at hne ⊢
    by_cases hpa : p a
    · rw [if_pos hpa] at hne ⊢
      rw [ih hne]
      have ht : t ≠ [] := by
        intro h
        rw [h] at hne
        exact hne rfl
      cases t with
      | nil => exact absurd rfl ht
      | cons b u => exact (List.getLast?_cons_cons ..).symm
    · rw [if_neg hpa]

/-- The head of a stripped list is not whitespace. -/
theorem head?_pyStrip_not_space (l : List Char) (c : Char)
    (h : (pyStrip l).head? = some c) : isPySpace c = false := by
  unfold pyStrip at h
  rw [List.head?_reverse] at h
  by_cases hne : ((l.dropWhile isPySpace).reverse).dropWhile isPySpace = []
  · rw [hne] at h
    simp at h
  · rw [getLast?_dropWhile_of_ne_nil _ _ hne, List.getLast?_reverse] at h
    exact head?_dropWhile_false _ _ _ h

/-- The last character of a stripped list is not whitespace. -/
theorem getLast?_pyStrip_not_space (l : List Char) (c : Char)
    (h : (pyStrip l).getLast? = some c) : isPySpace c = false := by
  unfold pyStrip at h
  rw [List.getLast?_reverse] at h
  exact head?_dropWhile_false _ _ _ h

/-- `str.strip()` leaves no whitespace at either boundary. -/
theorem noEdgeWsL_pyStrip (l : List Char) : noEdgeWsL (pyStrip l) = true := by
  unfold noEdgeWsL
  cases hh : (pyStrip l).head? with
  | none =>
    cases hg : (pyStrip l).getLast? with
    | none => simp
    | some c => simp [getLast?_pyStrip_not_space l c hg]
  | some c =>
    cases hg : (pyStrip l).getLast? with
    | none => simp [head?_pyStrip_not_space l c hh]
    | some d => simp [head?_pyStrip_not_space l c hh, getLast?_pyStrip_not_space l d hg]

/-- Every field the extractor produces is boundary-trimmed. -/
theorem noEdgeWs_parseField (L : List (List Char)) (s : String) :
    noEdgeWs (parseField L s) = true := by
  unfold parseField
  cases h : searchLabels L s.data with
  | none => decide
  | some rest => exact noEdgeWsL_pyStrip _

/-- C4: on every input string the extractor returns a record with
exactly the four keys `business_purpose`, `data_quality_rules`,
`example_usage`, `issues`, in that order; every field whose label
(in either historical spelling, for issues) is not found is the
sentinel `N/A`; and every field is whitespace-trimmed at its
boundaries. -/
theorem c4_extraction_total (s : String) :
    (_parse_markdown_description s).map Prod.fst = structuredKeys ∧
    (∀ kv ∈ _parse_markdown_description s, noEdgeWs kv.2 = true) ∧
    (searchLabels [bpLabel] s.data = none → parseField [bpLabel] s = "N/A") ∧
    (searchLabels [dqLabel] s.data = none → parseField [dqLabel] s = "N/A") ∧
    (searchLabels [euLabel] s.data = none → parseField [euLabel] s = "N/A") ∧
    (searchLabels [kiLabel, isLabel] s.data = none →
      parseField [kiLabel, isLabel] s = "N/A") := by
  refine ⟨rfl, ?_, ?_, ?_, ?_, ?_⟩
  · intro kv hkv
    simp only [_parse_markdown_description, List.mem_cons, List.not_mem_nil, or_false] at hkv
    rcases hkv with h | h | h | h <;> subst h <;> exact noEdgeWs_parseField _ s
  · intro h; simp [parseField, h]
  · intro h; simp [parseField, h]
  · intro h; simp [parseField, h]
  · intro h; simp [parseField, h]

/-!
## Total generation failure (claim C5)
-/

/-- On an empty cache, a failing generation call returns the fallback,
writes nothing, and issues exactly one generator call. -/
theorem genDesc_fail_empty (env : Env) (tn : String) (ci : ColumnInfo)
    (samples : List String) (model e : String)
    (hgen : env.gen model (buildPrompt tn ci samples) = Except.error e) :
    _generate_description_with_ollama env [] tn ci samples model =
      Except.ok ⟨fallbackText tn ci e, [], [(model, buildPrompt tn ci samples)]⟩ := by
  simp [_generate_description_with_ollama, _get_cache_key, _load_from_cache, lookupC, hgen]

/-- The per-column loop under an always-failing generator: one record
and one generator call per column, each record parsed from the
column's fallback text, and the cache left empty. -/
theorem processColumns_total_failure (env : Env) (err : String → String → String)
    (tn model : String) (hgen : ∀ m p, env.gen m p = Except.error (err m p)) :
    ∀ df : List DfColumn,
      processColumns env tn model df [] =
        Except.ok
          (df.map (fun col =>
            finalColumnStructure col.name
              (_parse_markdown_description
                (fallbackText tn (colInfoOf col)
                  (err model (buildPrompt tn (colInfoOf col) (samplesOf col)))))),
           [],
           df.map (fun col => (model, buildPrompt tn (colInfoOf col) (samplesOf col)))) := by
  intro df
  induction df with
  | nil => rfl
  | cons col rest ih =>
    simp only [processColumns,
      genDesc_fail_empty env tn (colInfoOf col) (samplesOf col) model _
        (hgen model (buildPrompt tn (colInfoOf col) (samplesOf col))),
      ih, List.map_cons, List.singleton_append]

/-- C5: if the generator fails on every call, a readable table still
yields one ColumnRecord per column, in order, each holding exactly one
StructuredDescription parsed from that column's fallback text, with
all four fields present; no exception reaches the caller and the
result is not the empty dict signal. -/
theorem c5_schema_invariance_under_total_failure (env : Env)
    (err : String → String → String) (path model : String) (df : List DfColumn)
    (hex : env.fileExists path = true)
    (hcsv : env.readCsv path = Except.ok df)
    (hgen : ∀ m p, env.gen m p = Except.error (err m p)) :
    generate_descriptions_from_csv env [] path model =
      (PyVal.vdict [(tableNameOf path,
          PyVal.vlist (df.map (fun col =>
            finalColumnStructure col.name
              (_parse_markdown_description
                (fallbackText (tableNameOf path) (colInfoOf col)
                  (err model
                    (buildPrompt (tableNameOf path) (colInfoOf col) (samplesOf col))))))))],
       [],
       df.map (fun col =>
         (model, buildPrompt (tableNameOf path) (colInfoOf col) (samplesOf col)))) ∧
    ∀ col ∈ df,
      (_parse_markdown_description
        (fallbackText (tableNameOf path) (colInfoOf col)
          (err model (buildPrompt (tableNameOf path) (colInfoOf col)
            (samplesOf col))))).map Prod.fst = structuredKeys := by
  constructor
  · simp [generate_descriptions_from_csv, hex, hcsv,
      processColumns_total_failure env err (tableNameOf path) model hgen df]
  · intro col _
    rfl

/-- Witness for C5 at a concrete world whose generator always raises
`Connection refused`. -/
theorem c5_schema_invariance_under_total_failure_witness :
    envW5.fileExists "sales_data.csv" = true ∧
    envW5.readCsv "sales_data.csv" = Except.ok dfW5 ∧
    (∀ m p, envW5.gen m p = Except.error (errW5 m p)) ∧
    (generate_descriptions_from_csv envW5 [] "sales_data.csv" "llama3" =
      (PyVal.vdict [(tableNameOf "sales_data.csv",
          PyVal.vlist (dfW5.map (fun col =>
            finalColumnStructure col.name
              (_parse_markdown_description
                (fallbackText (tableNameOf "sales_data.csv") (colInfoOf col)
                  (errW5 "llama3"
                    (buildPrompt (tableNameOf "sales_data.csv") (colInfoOf col)
                      (samplesOf col))))))))],
       [],
       dfW5.map (fun col =>
         ("llama3",
          buildPrompt (tableNameOf "sales_data.csv") (colInfoOf col) (samplesOf col)))) ∧
     ∀ col ∈ dfW5,
       (_parse_markdown_description
         (fallbackText (tableNameOf "sales_data.csv") (colInfoOf col)
           (errW5 "llama3" (buildPrompt (tableNameOf "sales_data.csv") (colInfoOf col)
             (samplesOf col))))).map Prod.fst = structuredKeys) :=
  ⟨rfl, rfl, fun _ _ => rfl,
    c5_schema_invariance_under_total_failure envW5 errW5 "sales_data.csv" "llama3" dfW5
      rfl rfl (fun _ _ => rfl)⟩

/-!
## The output shape (claim C7)
-/

theorem lookupC_insertC (cache : Cache) (k k' : String) (v : CacheVal) :
    lookupC (insertC cache k v) k' = if k = k' then some v else lookupC cache k' := by
  simp [insertC, lookupC]

/-- Writing a readable entry keeps the cache clean. -/
theorem cleanCache_insert_good (cache : Cache) (h : CleanCache cache) (k s : String) :
    CleanCache (insertC cache k (CacheVal.good s)) := by
  intro k'
  rw [lookupC_insertC]
  by_cases hk : k = k'
  · simp [hk]
  · simp only [if_neg hk]
    exact h k'

/-- On a clean cache the generation step never raises, and it leaves
the cache clean. -/
theorem genDesc_clean (env : Env) (cache : Cache) (tn : String) (ci : ColumnInfo)
    (samples : List String) (model : String) (h : CleanCache cache) :
    ∃ out : GenOutcome,
      _generate_description_with_ollama env cache tn ci samples model = Except.ok out ∧
      CleanCache out.cache := by
  cases hl : lookupC cache (env.md5Hex (buildPrompt tn ci samples)) with
  | some v =>
    cases v with
    | corrupt => exact absurd hl (h _)
    | good s =>
      by_cases hs : s = ""
      · subst hs
        cases hg : env.gen model (buildPrompt tn ci samples) with
        | error e =>
          refine ⟨⟨fallbackText tn ci e, cache, [(model, buildPrompt tn ci samples)]⟩, ?_, h⟩
          simp [_generate_description_with_ollama, _get_cache_key, _load_from_cache, hl, hg]
        | ok content =>
          cases hst : env.storeFail (env.md5Hex (buildPrompt tn ci samples)) with
          | none =>
            refine ⟨⟨pyStripStr content,
              insertC cache (env.md5Hex (buildPrompt tn ci samples))
                (CacheVal.good (pyStripStr content)),
              [(model, buildPrompt tn ci samples)]⟩, ?_, cleanCache_insert_good cache h _ _⟩
            simp [_generate_description_with_ollama, _get_cache_key, _load_from_cache,
              _save_to_cache, hl, hg, hst]
          | some msg =>
            refine ⟨⟨fallbackText tn ci msg, cache, [(model, buildPrompt tn ci samples)]⟩, ?_, h⟩
            simp [_generate_description_with_ollama, _get_cache_key, _load_from_cache,
              _save_to_cache, hl, hg, hst]
      · refine ⟨⟨s, cache, []⟩, ?_, h⟩
        simp [_generate_description_with_ollama, _get_cache_key, _load_from_cache, hl, hs]
  | none =>
    cases hg : env.gen model (buildPrompt tn ci samples) with
    | error e =>
      refine ⟨⟨fallbackText tn ci e, cache, [(model, buildPrompt tn ci samples)]⟩, ?_, h⟩
      simp [_generate_description_with_ollama, _get_cache_key, _load_from_cache, hl, hg]
    | ok content =>
      cases hst : env.storeFail (env.md5Hex (buildPrompt tn ci samples)) with
      | none =>
        refine ⟨⟨pyStripStr content,
          insertC cache (env.md5Hex (buildPrompt tn ci samples))
            (CacheVal.good (pyStripStr content)),
          [(model, buildPrompt tn ci samples)]⟩, ?_, cleanCache_insert_good cache h _ _⟩
        simp [_generate_description_with_ollama, _get_cache_key, _load_from_cache,
          _save_to_cache, hl, hg, hst]
      | some msg =>
        refine ⟨⟨fallbackText tn ci msg, cache, [(model, buildPrompt tn ci samples)]⟩, ?_, h⟩
        simp [_generate_description_with_ollama, _get_cache_key, _load_from_cache,
          _save_to_cache, hl, hg, hst]

/-- On a clean cache the per-column loop never raises; it yields one
record per column, in column order, each record being the
`column_name`/`column_desc` dictionary wrapping a single
four-field description. -/
theorem processColumns_clean (env : Env) (tn model : String) :
    ∀ (df : List DfColumn) (cache : Cache), CleanCache cache →
      ∃ (recs : List PyVal) (cache2 : Cache) (calls : List (String × String)),
        processColumns env tn model df cache = Except.ok (recs, cache2, calls) ∧
        List.Forall₂ (fun (col : DfColumn) (r : PyVal) =>
          ∃ d : List (String × String),
            d.map Prod.fst = structuredKeys ∧
            r = finalColumnStructure col.name d) df recs := by
  intro df
  induction df with
  | nil =>
    intro cache _
    exact ⟨[], cache, [], rfl, List.Forall₂.nil⟩
  | cons col rest ih =>
    intro cache h
    obtain ⟨out, hout, hclean⟩ := genDesc_clean env cache tn (colInfoOf col) (samplesOf col) model h
    obtain ⟨recs, cache2, calls, hrec, hall⟩ := ih out.cache hclean
    refine ⟨finalColumnStructure col.name (_parse_markdown_description out.text) :: recs,
      cache2, out.calls ++ calls, ?_, ?_⟩
    · simp only [processColumns, hout, hrec]
    · exact List.Forall₂.cons ⟨_parse_markdown_description out.text, rfl, rfl⟩ hall

/-- C7 counterexample: on a concrete successfully processed table the
per-column record's keys are `column_name` and `column_desc`, not the
`column_name`/`descriptions` pair the claim states. -/
theorem c7_record_key_is_column_desc :
    recordKeyLists (generate_descriptions_from_csv envC7 [] "shops.csv" "llama3").1 =
      [["column_name", "column_desc"]] ∧
    recordKeyLists (generate_descriptions_from_csv envC7 [] "shops.csv" "llama3").1 ≠
      [specRecordKeys] := by
  refine ⟨rfl, ?_⟩
  intro hc
  rw [show recordKeyLists (generate_descriptions_from_csv envC7 [] "shops.csv" "llama3").1 =
    [["column_name", "column_desc"]] from rfl] at hc
  simp [specRecordKeys] at hc

/-- C7 (amended): every successfully processed table returns exactly
`{table_name: [{column_name, column_desc: [StructuredDescription]}]}`:
the table name maps to one record per source column, in source order,
each pairing the column name, under the key `column_desc`, with a
sequence containing exactly one four-field StructuredDescription. -/
theorem c7_output_shape (env : Env) (cache : Cache) (path model : String)
    (df : List DfColumn)
    (hex : env.fileExists path = true)
    (hcsv : env.readCsv path = Except.ok df)
    (hclean : CleanCache cache) :
    ∃ (recs : List PyVal) (cache2 : Cache) (calls : List (String × String)),
      generate_descriptions_from_csv env cache path model =
        (PyVal.vdict [(tableNameOf path, PyVal.vlist recs)], cache2, calls) ∧
      List.Forall₂ (fun (col : DfColumn) (r : PyVal) =>
        ∃ d : List (String × String),
          d.map Prod.fst = structuredKeys ∧
          r = finalColumnStructure col.name d) df recs := by
  obtain ⟨recs, cache2, calls, hrec, hall⟩ :=
    processColumns_clean env (tableNameOf path) model df cache hclean
  refine ⟨recs, cache2, calls, ?_, hall⟩
  simp [generate_descriptions_from_csv, hex, hcsv, hrec]

/-- Witness for C7's amended shape at the concrete world of the
counterexample. -/
theorem c7_output_shape_witness :
    envC7.fileExists "shops.csv" = true ∧
    envC7.readCsv "shops.csv" = Except.ok dfC7 ∧
    CleanCache [] ∧
    (∃ (recs : List PyVal) (cache2 : Cache) (calls : List (String × String)),
      generate_descriptions_from_csv envC7 [] "shops.csv" "llama3" =
        (PyVal.vdict [(tableNameOf "shops.csv", PyVal.vlist recs)], cache2, calls) ∧
      List.Forall₂ (fun (col : DfColumn) (r : PyVal) =>
        ∃ d : List (String × String),
          d.map Prod.fst = structuredKeys ∧
          r = finalColumnStructure col.name d) dfC7 recs) :=
  ⟨rfl, rfl, fun _ => by simp [lookupC],
    c7_output_shape envC7 [] "shops.csv" "llama3" dfC7 rfl rfl (fun _ => by simp [lookupC])⟩

/-!
## Parsing the fallback response (claim C6)
-/

theorem stopHere_cons_of_ne_nl (c : Char) (rest : List Char) (h : c ≠ '\n') :
    stopHere (c :: rest) = false := by
  simp [stopHere, h]

theorem captureUpto_append_of_noNL :
    ∀ (xs r : List Char), (∀ c ∈ xs, c ≠ '\n') →
      captureUpto (xs ++ r) = xs ++ captureUpto r := by
  intro xs
  induction xs with
  | nil => intro r _; rfl
  | cons c xs ih =>
    intro r h
    have hc : c ≠ '\n' := h c (List.mem_cons_self ..)
    rw [List.cons_append, captureUpto, if_neg (by simp [stopHere_cons_of_ne_nl c _ hc]),
      ih r (fun d hd => h d (List.mem_cons_of_mem _ hd)), List.cons_append]

theorem captureUpto_of_noNL (l : List Char) (h : ∀ c ∈ l, c ≠ '\n') :
    captureUpto l = l := by
  have h2 := captureUpto_append_of_noNL l [] h
  simpa [captureUpto] using h2

theorem tryLabels_none_of_star (L : List (List Char))
    (hL : ∀ l ∈ L, ∃ ps, l = '*' :: ps) (c : Char) (s : List Char)
    (hc : lowerChar c ≠ '*') : tryLabels L (c :: s) = none := by
  induction L with
  | nil => rfl
  | cons l ls ih =>
    obtain ⟨ps, rfl⟩ := hL l (List.mem_cons_self ..)
    simp only [tryLabels, tryLabel, if_neg hc]
    exact ih (fun l' hl' => hL l' (List.mem_cons_of_mem _ hl'))

theorem searchLabels_cons_none (L : List (List Char)) (c : Char) (cs : List Char)
    (h : tryLabels L (c :: cs) = none) :
    searchLabels L (c :: cs) = searchLabels L cs := by
  simp only [searchLabels, h]

/-- The label scan passes over any segment containing no `*`. -/
theorem searchLabels_append_of_noStar (L : List (List Char))
    (hL : ∀ l ∈ L, ∃ ps, l = '*' :: ps) :
    ∀ (xs r : List Char), (∀ c ∈ xs, lowerChar c ≠ '*') →
      searchLabels L (xs ++ r) = searchLabels L r := by
  intro xs
  induction xs with
  | nil => intro r _; rfl
  | cons c xs ih =>
    intro r h
    rw [List.cons_append,
      searchLabels_cons_none L c (xs ++ r)
        (tryLabels_none_of_star L hL c (xs ++ r) (h c (List.mem_cons_self ..)))]
    exact ih r (fun d hd => h d (List.mem_cons_of_mem _ hd))

/-- Neither issues label occurs in the fallback's first literal
segment. -/
theorem skipIssues0 (r : List Char) :
    searchLabels [kiLabel, isLabel]
        ("- **Business Purpose**: Could not determine purpose for ".data ++ r) =
      searchLabels [kiLabel, isLabel] r := rfl

/-- Neither issues label occurs in the fallback's second literal
segment. -/
theorem skipIssues1 (r : List Char) :
    searchLabels [kiLabel, isLabel]
        (".\n- **Data Quality Rules**: Must conform to data type ".data ++ r) =
      searchLabels [kiLabel, isLabel] r := rfl

/-- Neither issues label occurs in the fallback's third literal
segment. -/
theorem skipIssues2 (r : List Char) :
    searchLabels [kiLabel, isLabel]
        (".\n- **Example Usage**: Used for general analysis within the ".data ++ r) =
      searchLabels [kiLabel, isLabel] r := rfl

/-- The scan of the fallback's fourth literal segment matches the
`Known Issues/Limitations` label and returns the text after the
colon. -/
theorem matchIssues3 (r : List Char) :
    searchLabels [kiLabel, isLabel]
        (" table.\n- **Known Issues/Limitations**: LLM description generation failed: ".data
          ++ r) =
      some (" LLM description generation failed: ".data ++ r) := rfl

/-- The greedy whitespace run after the matched colon is the single
space before `LLM`. -/
theorem dropSpaceIssues (r : List Char) :
    (" LLM description generation failed: ".data ++ r).dropWhile isPySpace =
      "LLM description generation failed: ".data ++ r := rfl

theorem dropWhile_of_head_false (p : Char → Bool) (l : List Char) (c : Char)
    (hh : l.head? = some c) (hc : p c = false) : l.dropWhile p = l := by
  cases l with
  | nil => simp at hh
  | cons a t =>
    simp only [List.head?_cons, Option.some.injEq] at hh
    subst hh
    rw [List.dropWhile_cons, if_neg (by simp [hc])]

/-- Stripping fixes a list whose two boundary characters are not
whitespace. -/
theorem pyStrip_of_clean_edges (l : List Char) (c d : Char)
    (hh : l.head? = some c) (hc : isPySpace c = false)
    (hg : l.getLast? = some d) (hd : isPySpace d = false) :
    pyStrip l = l := by
  unfold pyStrip
  rw [dropWhile_of_head_false isPySpace l c hh hc,
    dropWhile_of_head_false isPySpace l.reverse d (by rw [List.head?_reverse, hg]) hd]
  exact List.reverse_reverse l

theorem string_mk_data_append (a b : String) :
    String.mk (a.data ++ b.data) = a ++ b := by
  cases a
  cases b
  rfl

/-- The leftmost issues-label occurrence in the fallback text is the
one of its own template, provided none of the interpolated name, type
and table strings contains a `*`. -/
theorem searchIssues_fallback (tn : String) (ci : ColumnInfo) (e : String)
    (hname : noStar ci.column_name) (hdt : noStar ci.data_type) (htn : noStar tn) :
    searchLabels [kiLabel, isLabel] (fallbackText tn ci e).data =
      some (" LLM description generation failed: ".data ++ e.data) := by
  have hL : ∀ l ∈ [kiLabel, isLabel], ∃ ps, l = '*' :: ps := by
    intro l hl
    rcases List.mem_cons.mp hl with h | h
    · exact ⟨_, by rw [h]; rfl⟩
    · rw [List.mem_singleton.mp h]
      exact ⟨_, rfl⟩
  unfold fallbackText
  simp only [String.data_append, List.append_assoc]
  rw [skipIssues0, searchLabels_append_of_noStar _ hL _ _ hname,
    skipIssues1, searchLabels_append_of_noStar _ hL _ _ hdt,
    skipIssues2, searchLabels_append_of_noStar _ hL _ _ htn,
    matchIssues3]

/-- The issues field extracted from the fallback text is the failure
cause prefixed by the fixed template sentence, provided the
interpolated strings are label- and newline-free and the cause does
not end in whitespace. -/
theorem parse_fallback_issues (tn : String) (ci : ColumnInfo) (e : String)
    (hname : noStar ci.column_name) (hdt : noStar ci.data_type) (htn : noStar tn)
    (he : noNL e) (hlast : ∃ c, e.data.getLast? = some c ∧ isPySpace c = false) :
    parseField [kiLabel, isLabel] (fallbackText tn ci e) =
      "LLM description generation failed: " ++ e := by
  obtain ⟨d, hg, hd⟩ := hlast
  unfold parseField
  rw [searchIssues_fallback tn ci e hname hdt htn]
  show String.mk (pyStrip (captureUpto
      ((" LLM description generation failed: ".data ++ e.data).dropWhile isPySpace))) =
    "LLM description generation failed: " ++ e
  rw [dropSpaceIssues,
    captureUpto_append_of_noNL "LLM description generation failed: ".data e.data (by decide),
    captureUpto_of_noNL e.data he,
    pyStrip_of_clean_edges ("LLM description generation failed: ".data ++ e.data) 'L' d rfl
      (by decide) (by rw [List.getLast?_append, hg]; rfl) hd]
  exact string_mk_data_append "LLM description generation failed: " e

/-- C6 counterexample: the fallback text does not state the column's
nullability; two metadata records differing only in `is_nullable`
yield byte-identical fallbacks. -/
theorem c6_fallback_ignores_nullability :
    fallbackText "sales_data" ⟨"TransactionDate", "object", "YES"⟩ "timeout" =
      fallbackText "sales_data" ⟨"TransactionDate", "object", "NO"⟩ "timeout" ∧
    (⟨"TransactionDate", "object", "YES"⟩ : ColumnInfo) ≠
      ⟨"TransactionDate", "object", "NO"⟩ :=
  ⟨rfl, by decide⟩

/-- C6 (amended): the fallback response is a pure function of table
name, column name, declared type and failure cause: it is insensitive
to the nullability flag, it embeds the column's declared type, and the
StructuredDescription extracted from it records the failure cause in
its issues field (shown here for interpolated strings that contain no
label characters or newlines and a cause not ending in whitespace). -/
theorem c6_fallback_states_type_and_cause (tn : String) (ci : ColumnInfo) (e : String)
    (hname : noStar ci.column_name) (hdt : noStar ci.data_type) (htn : noStar tn)
    (he : noNL e) (hlast : ∃ c, e.data.getLast? = some c ∧ isPySpace c = false) :
    (∀ nb nb' : String,
      fallbackText tn ⟨ci.column_name, ci.data_type, nb⟩ e =
        fallbackText tn ⟨ci.column_name, ci.data_type, nb'⟩ e) ∧
    (∃ l r : List Char,
      (fallbackText tn ci e).data = l ++ ci.data_type.data ++ r) ∧
    parseField [kiLabel, isLabel] (fallbackText tn ci e) =
      "LLM description generation failed: " ++ e := by
  refine ⟨fun nb nb' => rfl, ?_, parse_fallback_issues tn ci e hname hdt htn he hlast⟩
  refine ⟨"- **Business Purpose**: Could not determine purpose for ".data
      ++ ci.column_name.data
      ++ ".\n- **Data Quality Rules**: Must conform to data type ".data,
    ".\n- **Example Usage**: Used for general analysis within the ".data
      ++ tn.data
      ++ " table.\n- **Known Issues/Limitations**: LLM description generation failed: ".data
      ++ e.data, ?_⟩
  simp only [fallbackText, String.data_append, List.append_assoc]

/-- Witness for C6's amended statement at a concrete failing column. -/
theorem c6_fallback_states_type_and_cause_witness :
    noStar "TransactionID" ∧ noStar "int64" ∧ noStar "sales_data" ∧
    noNL "Connection refused" ∧
    (∃ c, "Connection refused".data.getLast? = some c ∧ isPySpace c = false) ∧
    ((∀ nb nb' : String,
      fallbackText "sales_data" ⟨"TransactionID", "int64", nb⟩ "Connection refused" =
        fallbackText "sales_data" ⟨"TransactionID", "int64", nb'⟩ "Connection refused") ∧
    (∃ l r : List Char,
      (fallbackText "sales_data" ⟨"TransactionID", "int64", "NO"⟩ "Connection refused").data =
        l ++ "int64".data ++ r) ∧
    parseField [kiLabel, isLabel]
        (fallbackText "sales_data" ⟨"TransactionID", "int64", "NO"⟩ "Connection refused") =
      "LLM description generation failed: " ++ "Connection refused") :=
  ⟨by decide, by decide, by decide, by decide, ⟨'d', rfl, by decide⟩,
    c6_fallback_states_type_and_cause "sales_data" ⟨"TransactionID", "int64", "NO"⟩
      "Connection refused" (by decide) (by decide) (by decide) (by decide)
      ⟨'d', rfl, by decide⟩⟩

/-- Witness for C4 at the empty string: all four labels are absent and
all four fields are the sentinel. -/
theorem c4_extraction_total_witness :
    (_parse_markdown_description "").map Prod.fst = structuredKeys ∧
    searchLabels [bpLabel] "".data = none ∧
    parseField [bpLabel] "" = "N/A" ∧
    parseField [kiLabel, isLabel] "" = "N/A" ∧
    (∀ kv ∈ _parse_markdown_description "", noEdgeWs kv.2 = true) :=
  ⟨(c4_extraction_total "").1, rfl,
    (c4_extraction_total "").2.2.1 rfl,
    (c4_extraction_total "").2.2.2.2.2 rfl,
    (c4_extraction_total "").2.1⟩

